import Mathlib

/-!
Shallow embedding of the routing-core operations of the nxtp router:
the auction evaluator `newAuction`
(src/packages/router/src/lib/operations/auction.ts), the lifecycle
`cancel` operation (src/unnamed/part_001) and the gas-fee oracle
`calculateGasFee` (implementation absent from src/, modelled from the
spec; its unit tests appear in src/unnamed/part_000).

External I/O (NTP time, RPC reads, subgraph queries, signing) is
parameterised by an environment record: each field holds the value the
corresponding external call returns during the run being analysed.  The
control flow, checks and state updates of the source functions are
embedded verbatim.  Monetary quantities (ethers.js BigNumber) are
modelled as Int.
-/

namespace Nxtp

/-- Result of `BigNumber.from` on a decimal string: `some` of the signed
integer value when the string is a (possibly `-`-prefixed) run of digits,
`none` when ethers.js would throw (empty string, decimals, garbage). -/
def bigNumberFrom (s : String) : Option Int :=
  let digits : List Char → Option Nat := fun l =>
    if l = [] then none
    else l.foldl (fun acc c =>
      acc.bind (fun n => if c.isDigit then some (n * 10 + (c.toNat - 48)) else none)) (some 0)
  match s.data with
  | '-' :: rest => (digits rest).map (fun n => -(n : Int))
  | l => (digits l).map (fun n => (n : Int))

/-- The amount guard of `newAuction` (auction.ts lines 77-95): `true` when
`BigNumber.from(amount)` parses and `isZero()` is false, i.e. when no
`ZeroValueBid` is thrown. -/
def amountCheckPasses (amount : String) : Bool :=
  match bigNumberFrom amount with
  | none => false
  | some v => v != 0

/-- AuctionPayload (the fields destructured in auction.ts lines 58-73). -/
structure AuctionPayload where
  user : String
  sendingChainId : Nat
  sendingAssetId : String
  amount : String
  receivingAssetId : String
  receivingChainId : Nat
  expiry : Nat
  encryptedCallData : String
  callDataHash : String
  callTo : String
  transactionId : String
  receivingAddress : String
  dryRun : Bool
  initiator : String
deriving Repr, DecidableEq

/-- Labels passed to `receivedAuction.inc` (auction.ts lines 35-40),
embedded exactly as written in the source. -/
structure AuctionMetricLabels where
  sendingAssetId : String
  receivingAssetId : String
  sendingChainId : Nat
  receivingChainId : Nat
deriving Repr, DecidableEq

/-- The argument object of the `receivedAuction.inc` call at the top of
`newAuction` (auction.ts lines 35-40).  Note the source sets the
`sendingChainId` label from `data.receivingChainId`. -/
def receivedAuctionLabels (data : AuctionPayload) : AuctionMetricLabels :=
  { sendingAssetId := data.sendingAssetId
    receivingAssetId := data.receivingAssetId
    sendingChainId := data.receivingChainId
    receivingChainId := data.receivingChainId }

/-- AUCTION_REQUEST_MAP (helpers/auction) modelled as an association list
from rate-limiter key to last-attempt timestamp in milliseconds. -/
abbrev RequestMap : Type := List (String × Nat)

/-- Map.get: the last-attempt timestamp recorded for a key, if any. -/
def mapGet (m : RequestMap) (k : String) : Option Nat :=
  match m with
  | [] => none
  | (k2, v) :: rest => if k2 = k then some v else mapGet rest k

/-- Map.set: record a last-attempt timestamp for a key. -/
def mapSet (m : RequestMap) (k : String) (v : Nat) : RequestMap :=
  (k, v) :: (m.filter (fun p => p.1 ≠ k))

/-- The rate-limiter key template literal
user-sendingAssetId-sendingChainId-receivingAssetId-receivingChainId
(auction.ts lines 101-103 and 320-323). -/
def auctionKey (data : AuctionPayload) : String :=
  data.user ++ "-" ++ data.sendingAssetId ++ "-" ++ toString data.sendingChainId
    ++ "-" ++ data.receivingAssetId ++ "-" ++ toString data.receivingChainId

/-- The rate-limit test of auction.ts line 104:
`lastAttemptTime && lastAttemptTime + config.requestLimit > currentTime * 1000`
with JS truthiness on the number `lastAttemptTime` (`undefined` and `0` are
falsy). -/
def rateLimitExceeded (last : Option Nat) (requestLimit : Nat) (currentTime : Nat) : Bool :=
  match last with
  | none => false
  | some t => (t != 0) && decide (currentTime * 1000 < t + requestLimit)

/-- A subgraph sync record as consumed by `newAuction` (only the `synced`
flag is inspected, auction.ts lines 151 and 160). -/
structure SyncRecord where
  synced : Bool
deriving Repr, DecidableEq

/-- Per-chain configuration entries read by `newAuction`. -/
structure ChainCfg where
  providers : List String
  minGas : Int
  transactionManagerAddress : String
deriving Repr, DecidableEq

/-- Environment of one `newAuction` run: the values returned by each
external call the function makes, in source order.  `auctionExpiryBuffer`
stands for the constant AUCTION_EXPIRY_BUFFER imported from helpers
(absent from src/); `getReceiverAmountRes` is `none` when the AMM helper
`getReceiverAmount` throws (e.g. price impact too high), `swapIdxFound`
is false when `getSwapIdxList` throws. -/
structure AuctionEnv where
  schemaValid : Bool
  currentTime : Nat
  routerAddress : String
  requestLimit : Nat
  auctionExpiryBuffer : Nat
  inputDecimals : Nat
  outputDecimals : Nat
  chainConfig : Nat → Option ChainCfg
  receivingSyncRecords : List SyncRecord
  sendingSyncRecords : List SyncRecord
  swapIdxFound : Bool
  senderLiquidity : Int
  receiverLiquidity : Int
  getReceiverAmountRes : Option Int
  gasFeeInReceivingToken : Int
  senderBalance : Int
  receiverBalance : Int
  bidExpiryVal : Nat
  bidSignature : String

/-- The error kinds `newAuction` can throw, in the order its checks
appear in the source. -/
inductive AuctionError where
  | ParamsInvalid
  | ZeroValueBid
  | AuctionRateExceeded
  | AuctionExpired
  | ProvidersNotAvailable
  | SubgraphNotSynced (chainId : Nat)
  | SwapInvalid
  | PriceImpactTooHigh
  | NotEnoughAmount
  | NotEnoughLiquidity
  | NotEnoughGas
deriving Repr, DecidableEq

/-- The AuctionBid object built at auction.ts lines 295-314. -/
structure AuctionBid where
  user : String
  router : String
  initiator : String
  sendingChainId : Nat
  sendingAssetId : String
  amount : String
  receivingChainId : Nat
  receivingAssetId : String
  amountReceived : Int
  receivingAddress : String
  transactionId : String
  expiry : Nat
  callDataHash : String
  callTo : String
  encryptedCallData : String
  sendingChainTxManagerAddress : String
  receivingChainTxManagerAddress : String
  bidExpiry : Nat
deriving Repr, DecidableEq

/-- The AuctionResponse returned on success (auction.ts lines 324-328). -/
structure AuctionResponse where
  bid : AuctionBid
  bidSignature : Option String
  gasFeeInReceivingToken : Int
deriving Repr, DecidableEq

/-- The AuctionBid object literal of auction.ts lines 295-314, with
`amountReceived` already fee-subtracted (line 251). -/
def buildBid (env : AuctionEnv) (data : AuctionPayload)
    (sendingConfig receivingConfig : ChainCfg) (amountReceived : Int) : AuctionBid :=
  { user := data.user
    router := env.routerAddress
    initiator := data.initiator
    sendingChainId := data.sendingChainId
    sendingAssetId := data.sendingAssetId
    amount := data.amount
    receivingChainId := data.receivingChainId
    receivingAssetId := data.receivingAssetId
    amountReceived := amountReceived
    receivingAddress := data.receivingAddress
    transactionId := data.transactionId
    expiry := data.expiry
    callDataHash := data.callDataHash
    callTo := data.callTo
    encryptedCallData := data.encryptedCallData
    sendingChainTxManagerAddress := sendingConfig.transactionManagerAddress
    receivingChainTxManagerAddress := receivingConfig.transactionManagerAddress
    bidExpiry := env.bidExpiryVal }

/-- The AuctionResponse literal of auction.ts lines 324-328: the bid,
the signature (suppressed on dryRun), and the gas fee. -/
def buildResponse (env : AuctionEnv) (data : AuctionPayload)
    (sendingConfig receivingConfig : ChainCfg) (amountReceived : Int) : AuctionResponse :=
  { bid := buildBid env data sendingConfig receivingConfig amountReceived
    bidSignature := if data.dryRun then none else some env.bidSignature
    gasFeeInReceivingToken := env.gasFeeInReceivingToken }

/-- Shallow embedding of `newAuction`
(src/packages/router/src/lib/operations/auction.ts lines 30-329).
Returns the thrown error or the response, paired with the state of
AUCTION_REQUEST_MAP after the call.  Checks appear in source order:
schema validation, the zero-amount guard, the rate limit, the expiry
buffer, provider configuration, both chains' sync records, swap-index
resolution, the AMM quote, the gas-fee comparison (strict `lt`), fee
subtraction, receiver liquidity, and the min-gas checks; on success the
rate-limiter map is updated with `currentTime * 1000` under the auction
key and the bid is returned (signature suppressed on `dryRun`). -/
def newAuction (env : AuctionEnv) (data : AuctionPayload) (m : RequestMap) :
    Except AuctionError AuctionResponse × RequestMap :=
  if env.schemaValid = false then (.error .ParamsInvalid, m)
  else if amountCheckPasses data.amount = false then (.error .ZeroValueBid, m)
  else if rateLimitExceeded (mapGet m (auctionKey data)) env.requestLimit env.currentTime then
    (.error .AuctionRateExceeded, m)
  else if data.expiry ≤ env.currentTime + env.auctionExpiryBuffer then
    (.error .AuctionExpired, m)
  else
    match env.chainConfig data.sendingChainId with
    | none => (.error .ProvidersNotAvailable, m)
    | some sendingConfig =>
      match env.chainConfig data.receivingChainId with
      | none => (.error .ProvidersNotAvailable, m)
      | some receivingConfig =>
      if sendingConfig.providers = [] ∨ receivingConfig.providers = [] then
        (.error .ProvidersNotAvailable, m)
      else if env.receivingSyncRecords.any (fun r => r.synced) = false then
        (.error (.SubgraphNotSynced data.receivingChainId), m)
      else if env.sendingSyncRecords.any (fun r => r.synced) = false then
        (.error (.SubgraphNotSynced data.sendingChainId), m)
      else if env.swapIdxFound = false then (.error .SwapInvalid, m)
      else
        match env.getReceiverAmountRes with
        | none => (.error .PriceImpactTooHigh, m)
        | some amm =>
          if amm < env.gasFeeInReceivingToken then (.error .NotEnoughAmount, m)
          else
            if env.receiverLiquidity < amm - env.gasFeeInReceivingToken then
              (.error .NotEnoughLiquidity, m)
            else if env.senderBalance < sendingConfig.minGas
                ∨ env.receiverBalance < receivingConfig.minGas then
              (.error .NotEnoughGas, m)
            else
              (.ok (buildResponse env data sendingConfig receivingConfig
                      (amm - env.gasFeeInReceivingToken)),
                mapSet m (auctionKey data) (env.currentTime * 1000))

/-- Which side of the transfer a cancel input targets. -/
inductive Side where
  | sender
  | receiver
deriving Repr, DecidableEq

/-- Status of a subgraph transaction record
(adapters/subgraph/graphqlsdk). -/
inductive TransactionStatus where
  | Prepared
  | Fulfilled
  | Cancelled
deriving Repr, DecidableEq

/-- The parts of the receiver-side subgraph record that `cancel`
inspects: its status and its `txData.expiry`. -/
structure SubgraphTxRecord where
  status : TransactionStatus
  expiry : Nat
deriving Repr, DecidableEq

/-- A chain block as consumed by `cancel` (only the timestamp is read). -/
structure ChainBlock where
  timestamp : Nat
deriving Repr, DecidableEq

/-- SENDER_PREPARE_BUFFER_TIME from src/unnamed/part_001 line 18:
13 minutes (780 s). -/
def SENDER_PREPARE_BUFFER_TIME : Nat := 60 * 13

/-- constants.AddressZero from ethers. -/
def AddressZero : String := "0x0000000000000000000000000000000000000000"

/-- The invariant transaction data fields that `cancel` reads. -/
structure InvariantTransactionData where
  transactionId : String
  user : String
  sendingChainId : Nat
  receivingChainId : Nat
  sendingAssetId : String
  receivingAssetId : String
deriving Repr, DecidableEq

/-- CancelInput (lib/entities): side, prepared tx hash, and the variant
data spread into the cancel payload. -/
structure CancelInput where
  side : Side
  preparedTransactionHash : String
  amount : String
  expiry : Nat
  preparedBlockNumber : Nat
deriving Repr, DecidableEq

/-- Environment of one `cancel` run: results of its external calls.
`existingReceiverTx` is `contractReader.getTransactionForChain` on the
receiving chain; `preparedBlock` is `txService.getBlock` at the prepared
receipt's block (it can be null); `calculatedGasFee` is the
`calculateGasFee` result used for the router-contract relayer fee. -/
structure CancelEnv where
  validInvariantData : Bool
  validInput : Bool
  existingReceiverTx : Option SubgraphTxRecord
  currentTime : Nat
  preparedBlock : Option ChainBlock
  isRouterContract : Bool
  routerContractRelayerAsset : Option String
  calculatedGasFee : Int

/-- The error kinds `cancel` can throw. -/
inductive CancelError where
  | ParamsInvalid
  | ReceiverTxExists
  | SenderTxTooNew
deriving Repr, DecidableEq

/-- What `cancel` hands to `contractWriter.cancel` on success
(src/unnamed/part_001 lines 126-135). -/
structure CancelDispatch where
  cancelChain : Nat
  routerRelayerFeeAsset : String
  routerRelayerFee : Int
deriving Repr, DecidableEq

/-- The receiver-record guard of the sender branch
(src/unnamed/part_001 line 72):
`existing && existing.status !== Cancelled && currentTime < existing.txData.expiry`. -/
def receiverTxBlocks (existing : Option SubgraphTxRecord) (currentTime : Nat) : Bool :=
  match existing with
  | none => false
  | some e => decide (e.status ≠ TransactionStatus.Cancelled) && decide (currentTime < e.expiry)

/-- Shallow embedding of `cancel` (src/unnamed/part_001 lines 22-138).
After both schema validations, the sender branch throws
`ReceiverTxExists` when a non-cancelled, unexpired receiver record
exists, then throws `SenderTxTooNew` when the prepared block is missing
or younger than SENDER_PREPARE_BUFFER_TIME; otherwise it dispatches on
the sending chain with zero relayer fee.  The receiver branch dispatches
on the receiving chain unconditionally, computing a relayer fee only in
router-contract mode. -/
def cancel (env : CancelEnv) (invariantData : InvariantTransactionData)
    (input : CancelInput) : Except CancelError CancelDispatch :=
  if env.validInvariantData = false then .error .ParamsInvalid
  else if env.validInput = false then .error .ParamsInvalid
  else
    match input.side with
    | .sender =>
      if receiverTxBlocks env.existingReceiverTx env.currentTime then
        .error .ReceiverTxExists
      else
        match env.preparedBlock with
        | none => .error .SenderTxTooNew
        | some preparedBlock =>
          if env.currentTime < preparedBlock.timestamp + SENDER_PREPARE_BUFFER_TIME then
            .error .SenderTxTooNew
          else
            .ok { cancelChain := invariantData.sendingChainId
                  routerRelayerFeeAsset := AddressZero
                  routerRelayerFee := 0 }
    | .receiver =>
      if env.isRouterContract then
        .ok { cancelChain := invariantData.receivingChainId
              routerRelayerFeeAsset := env.routerContractRelayerAsset.getD AddressZero
              routerRelayerFee := env.calculatedGasFee }
      else
        .ok { cancelChain := invariantData.receivingChainId
              routerRelayerFeeAsset := AddressZero
              routerRelayerFee := 0 }

/-- Gas-estimate actions of the fee oracle. -/
inductive GasAction where
  | prepare
  | fulfill
  | cancelAction
deriving Repr, DecidableEq

/-- Environment of the fee oracle: the chains with a deployed price
oracle, the gas and token prices it reads, and the static gas-estimate
table. -/
structure GasOracleEnv where
  chainsWithPriceOracles : List Nat
  gasPrice : Nat
  ethPrice : Nat
  tokenPrice : Nat
  gasEstimate : GasAction → Nat

/-- Modelled from the spec: the `calculateGasFee` implementation lives in
the chainreader package, which is absent from src/ (src/unnamed/part_000
holds only its unit tests).  Per spec 4.A it returns
`gasPrice · gasEstimate(action) · ethPrice / tokenPrice` under floor
division, scaled from 18 decimals to `decimals`, and returns 0 when the
chain has no configured price oracle; the unit tests in part_000 confirm
the formula (lines 498-528) and the oracle-less zero (lines 530-542). -/
def calculateGasFee (env : GasOracleEnv) (chainId : Nat) (decimals : Nat)
    (action : GasAction) : Nat :=
  if chainId ∈ env.chainsWithPriceOracles then
    let fee18 := env.gasPrice * env.gasEstimate action * env.ethPrice / env.tokenPrice
    if decimals ≤ 18 then fee18 / 10 ^ (18 - decimals)
    else fee18 * 10 ^ (decimals - 18)
  else 0

/-! Concrete runs used below to evaluate the embedded operations. -/

/-- Extract the bid's amountReceived from an auction outcome. -/
def resultAmountReceived (r : Except AuctionError AuctionResponse) : Option Int :=
  match r with
  | .ok res => some res.bid.amountReceived
  | .error _ => none

/-- Extract the bid's (sender-side) amount string from an auction outcome. -/
def resultBidAmount (r : Except AuctionError AuctionResponse) : Option String :=
  match r with
  | .ok res => some res.bid.amount
  | .error _ => none

/-- Unwrap a successful auction outcome, with a fallback. -/
def okResult (r : Except AuctionError AuctionResponse) (d : AuctionResponse) : AuctionResponse :=
  match r with
  | .ok res => res
  | .error _ => d

/-- Fallback response for `okResult`. -/
def defaultResponse : AuctionResponse :=
  { bid :=
      { user := ""
        router := ""
        initiator := ""
        sendingChainId := 0
        sendingAssetId := ""
        amount := ""
        receivingChainId := 0
        receivingAssetId := ""
        amountReceived := 0
        receivingAddress := ""
        transactionId := ""
        expiry := 0
        callDataHash := ""
        callTo := ""
        encryptedCallData := ""
        sendingChainTxManagerAddress := ""
        receivingChainTxManagerAddress := ""
        bidExpiry := 0 }
    bidSignature := none
    gasFeeInReceivingToken := 0 }

/-- A well-formed auction payload between chains 1337 and 1338. -/
def dataC1 : AuctionPayload :=
  { user := "0xuser"
    sendingChainId := 1337
    sendingAssetId := "0xsa"
    amount := "100"
    receivingAssetId := "0xra"
    receivingChainId := 1338
    expiry := 10000
    encryptedCallData := "0x"
    callDataHash := "0xhash"
    callTo := "0x0"
    transactionId := "0xt1"
    receivingAddress := "0xrecv"
    dryRun := false
    initiator := "0xuser" }

/-- An environment in which every check of `newAuction` passes and the
AMM output equals the gas fee exactly. -/
def envC1 : AuctionEnv :=
  { schemaValid := true
    currentTime := 1000
    routerAddress := "0xrouter"
    requestLimit := 5000
    auctionExpiryBuffer := 300
    inputDecimals := 18
    outputDecimals := 18
    chainConfig := fun _ =>
      some { providers := ["p"], minGas := 10, transactionManagerAddress := "0xtm" }
    receivingSyncRecords := [{ synced := true }]
    sendingSyncRecords := [{ synced := true }]
    swapIdxFound := true
    senderLiquidity := 1000000
    receiverLiquidity := 1000000
    getReceiverAmountRes := some 50
    gasFeeInReceivingToken := 50
    senderBalance := 100
    receiverBalance := 100
    bidExpiryVal := 1300
    bidSignature := "0xsig" }

/-- The response `newAuction` produces in the `envC1` run. -/
def rC1 : AuctionResponse := okResult (newAuction envC1 dataC1 []).1 defaultResponse

/-- The `dataC1` payload with a negative amount string. -/
def dataC5 : AuctionPayload :=
  { dataC1 with amount := "-1", transactionId := "0xt5" }

/-- An environment in which every later check of `newAuction` passes,
used to drive the negative-amount payload to a signed bid. -/
def envC5 : AuctionEnv :=
  { envC1 with getReceiverAmountRes := some 500, gasFeeInReceivingToken := 20 }

/-- A payload with distinct sending (1337) and receiving (1338) chains,
for the metric-label check. -/
def dataC6 : AuctionPayload := { dataC1 with transactionId := "0xt6" }

/-- Invariant data of a transfer from chain 1337 to 1338. -/
def invC2 : InvariantTransactionData :=
  { transactionId := "0xt2"
    user := "0xuser"
    sendingChainId := 1337
    receivingChainId := 1338
    sendingAssetId := "0xsa"
    receivingAssetId := "0xra" }

/-- A sender-side cancel input. -/
def inputC2 : CancelInput :=
  { side := Side.sender
    preparedTransactionHash := "0xprep"
    amount := "100"
    expiry := 5000
    preparedBlockNumber := 7 }

/-- A cancel environment in which a live (Prepared, unexpired) receiver
record exists. -/
def envC2 : CancelEnv :=
  { validInvariantData := true
    validInput := true
    existingReceiverTx := some { status := TransactionStatus.Prepared, expiry := 5000 }
    currentTime := 1000
    preparedBlock := some { timestamp := 900 }
    isRouterContract := false
    routerContractRelayerAsset := none
    calculatedGasFee := 0 }

/-- A receiver-side cancel input. -/
def inputC10 : CancelInput := { inputC2 with side := Side.receiver }

/-- A cancel environment for the receiver side, with a live receiver
record and a young prepared block (which must both be ignored). -/
def envC10 : CancelEnv := { envC2 with isRouterContract := false }

/-- A fee-oracle environment where chain 1 has an oracle but the gas
price reads 0. -/
def gasEnvC4 : GasOracleEnv :=
  { chainsWithPriceOracles := [1]
    gasPrice := 0
    ethPrice := 31
    tokenPrice := 7
    gasEstimate := fun a =>
      match a with
      | GasAction.prepare => 100000
      | GasAction.fulfill => 200000
      | GasAction.cancelAction => 100000 }

/-- A fee-oracle environment with ordinary positive prices. -/
def gasEnvC4w : GasOracleEnv := { gasEnvC4 with gasPrice := 5000000000 }

/-- Payload for the rate-limit run. -/
def dataC3 : AuctionPayload := { dataC1 with transactionId := "0xt3" }

/-- Environment for the rate-limit run. -/
def envC3 : AuctionEnv := envC1

/-- A request map holding a last attempt at 500 ms for `dataC3`'s key. -/
def mC3 : RequestMap := [(auctionKey dataC3, 500)]

/-- Payload for the expiry-check run. -/
def dataC7 : AuctionPayload := { dataC1 with transactionId := "0xt7" }

/-- Environment for the expiry-check run. -/
def envC7 : AuctionEnv := envC1

/-- Chain config with one provider, for the sync-check run. -/
def cfgC8 : ChainCfg :=
  { providers := ["p"], minGas := 10, transactionManagerAddress := "0xtm" }

/-- Payload for the sync-check run. -/
def dataC8 : AuctionPayload := { dataC1 with transactionId := "0xt8" }

/-- Environment for the sync-check run: the receiving chain's only sync
record reports synced = false. -/
def envC8 : AuctionEnv :=
  { envC1 with
    chainConfig := fun _ => some cfgC8
    receivingSyncRecords := [{ synced := false }]
    sendingSyncRecords := [{ synced := true }] }

/-! Theorems. -/

/-- C1 counterexample: `newAuction` accepts a payload (all checks pass)
yet returns a bid whose amountReceived is 0 — the AMM output equals the
gas fee, the strict `lt` guard does not fire, and the subtraction leaves
zero — refuting the claim that every accepted auction yields
amountReceived > 0. -/
theorem newAuction_zero_amountReceived_bid :
    resultAmountReceived (newAuction envC1 dataC1 []).1 = some 0 := by rfl

/-- C5: the ZeroValueBid guard does not reject negative amounts:
`BigNumber.from("-1")` parses to -1, `isZero()` is false, so the guard
passes and `newAuction` can return a signed bid whose amount is "-1" —
contradicting the claim (and the source's own comment) that negative
amounts throw ZeroValueBid. -/
theorem newAuction_negative_amount_accepted :
    bigNumberFrom "-1" = some (-1) ∧ amountCheckPasses "-1" = true ∧
      resultBidAmount (newAuction envC5 dataC5 []).1 = some "-1" :=
  ⟨rfl, rfl, rfl⟩

/-- C6: `receivedAuction.inc` sets its sendingChainId label from
`data.receivingChainId` (auction.ts line 38), not from
`data.sendingChainId`: on a payload sending from 1337 to 1338 the label
reads 1338 while the payload's sendingChainId is 1337. -/
theorem receivedAuction_label_mismatch :
    (∀ data : AuctionPayload,
      (receivedAuctionLabels data).sendingChainId = data.receivingChainId) ∧
    (receivedAuctionLabels dataC6).sendingChainId = 1338 ∧
    dataC6.sendingChainId = 1337 :=
  ⟨fun _ => rfl, rfl, rfl⟩

/-- C4 counterexample: chain 1 has a configured price oracle, yet
`calculateGasFee` returns 0 because the gas price reads 0 — refuting the
only-if direction of the claim that a zero fee implies a missing
oracle. -/
theorem calculateGasFee_zero_with_oracle :
    calculateGasFee gasEnvC4 1 18 GasAction.prepare = 0 ∧
      1 ∈ gasEnvC4.chainsWithPriceOracles :=
  ⟨rfl, by decide⟩

/-- C2: after schema validation, a sender-side cancel (a) throws
ReceiverTxExists whenever a receiver record exists that is not Cancelled
and whose expiry has not passed, (b) throws SenderTxTooNew whenever no
such record blocks it but the prepared block is younger than
SENDER_PREPARE_BUFFER_TIME (780 s), and (c) dispatches only when every
receiver record is Cancelled or expired and the prepared block exists
and is at least 780 s old. -/
theorem cancel_sender_safety (env : CancelEnv) (inv : InvariantTransactionData)
    (input : CancelInput) (hside : input.side = Side.sender)
    (h1 : env.validInvariantData = true) (h2 : env.validInput = true) :
    (∀ e, env.existingReceiverTx = some e → e.status ≠ TransactionStatus.Cancelled →
        env.currentTime < e.expiry →
        cancel env inv input = .error .ReceiverTxExists) ∧
    (receiverTxBlocks env.existingReceiverTx env.currentTime = false →
      ∀ b, env.preparedBlock = some b →
        env.currentTime < b.timestamp + SENDER_PREPARE_BUFFER_TIME →
        cancel env inv input = .error .SenderTxTooNew) ∧
    (∀ d, cancel env inv input = .ok d →
      (∀ e, env.existingReceiverTx = some e →
        e.status = TransactionStatus.Cancelled ∨ e.expiry ≤ env.currentTime) ∧
      ∃ b, env.preparedBlock = some b ∧
        b.timestamp + SENDER_PREPARE_BUFFER_TIME ≤ env.currentTime) := by
  refine ⟨?_, ?_, ?_⟩
  · intro e he hst hexp
    have hb : receiverTxBlocks env.existingReceiverTx env.currentTime = true := by
      unfold receiverTxBlocks
      rw [he]
      simp [hst, hexp]
    simp [cancel, h1, h2, hside, hb]
  · intro hb b hpb hyoung
    simp [cancel, h1, h2, hside, hb, hpb, hyoung]
  · intro d hd
    simp only [cancel] at hd
    rw [h1, h2, hside] at hd
    simp only [Bool.true_eq_false, if_false] at hd
    by_cases hb : receiverTxBlocks env.existingReceiverTx env.currentTime = true
    · rw [if_pos hb] at hd
      exact absurd hd (by simp)
    · rw [if_neg hb] at hd
      have hrec : ∀ e, env.existingReceiverTx = some e →
          e.status = TransactionStatus.Cancelled ∨ e.expiry ≤ env.currentTime := by
        intro e he
        by_contra hcon
        push_neg at hcon
        obtain ⟨hc, hlt⟩ := hcon
        refine hb ?_
        unfold receiverTxBlocks
        rw [he]
        simp [hc, hlt]
      split at hd
      · exact absurd hd (by simp)
      · rename_i b heq
        by_cases hy : env.currentTime < b.timestamp + SENDER_PREPARE_BUFFER_TIME
        · rw [if_pos hy] at hd
          exact absurd hd (by simp)
        · exact ⟨hrec, b, heq, by omega⟩

/-- C2 witness: in `envC2` a Prepared, unexpired receiver record exists,
so the sender-side cancel throws ReceiverTxExists. -/
theorem cancel_sender_safety_witness :
    cancel envC2 invC2 inputC2 = .error .ReceiverTxExists :=
  (cancel_sender_safety envC2 invC2 inputC2 rfl rfl rfl).1
    { status := TransactionStatus.Prepared, expiry := 5000 } rfl (by decide) (by decide)

/-- C10: a receiver-side cancel that passes both schema validations
dispatches unconditionally on the receiving chain — no expiry check, no
receiver-record lookup, no prepared-block-age check — so it can never
throw ReceiverTxExists or SenderTxTooNew; the relayer fee is computed
only in router-contract mode. -/
theorem cancel_receiver_unconditional (env : CancelEnv)
    (inv : InvariantTransactionData) (input : CancelInput)
    (hside : input.side = Side.receiver)
    (h1 : env.validInvariantData = true) (h2 : env.validInput = true) :
    cancel env inv input =
      .ok { cancelChain := inv.receivingChainId
            routerRelayerFeeAsset :=
              if env.isRouterContract then env.routerContractRelayerAsset.getD AddressZero
              else AddressZero
            routerRelayerFee := if env.isRouterContract then env.calculatedGasFee else 0 } := by
  unfold cancel
  rw [h1, h2, hside]
  by_cases hic : env.isRouterContract <;> simp [hic]

/-- C10 witness: in `envC10` (live receiver record, young prepared
block) the receiver-side cancel still dispatches on chain 1338 with zero
relayer fee. -/
theorem cancel_receiver_unconditional_witness :
    cancel envC10 invC2 inputC10 =
      .ok { cancelChain := 1338
            routerRelayerFeeAsset := AddressZero
            routerRelayerFee := 0 } := by
  have h := cancel_receiver_unconditional envC10 invC2 inputC10 rfl rfl rfl
  simpa using h

/-- Helper for the results below: every `newAuction` outcome is either a
throw that returns the request map untouched, or a success that records
the attempt time under the auction key. -/
theorem newAuction_pair_spec (env : AuctionEnv) (data : AuctionPayload)
    (m : RequestMap) (res : Except AuctionError AuctionResponse) (m2 : RequestMap)
    (h : newAuction env data m = (res, m2)) :
    (m2 = m ∧ ∃ e, res = Except.error e) ∨
    (m2 = mapSet m (auctionKey data) (env.currentTime * 1000) ∧
      ∃ sendingConfig receivingConfig amm,
        env.chainConfig data.sendingChainId = some sendingConfig ∧
        env.chainConfig data.receivingChainId = some receivingConfig ∧
        env.getReceiverAmountRes = some amm ∧
        ¬ amm < env.gasFeeInReceivingToken ∧
        ¬ env.receiverLiquidity < amm - env.gasFeeInReceivingToken ∧
        res = Except.ok (buildResponse env data sendingConfig receivingConfig
          (amm - env.gasFeeInReceivingToken))) := by
  unfold newAuction at h
  by_cases c1 : env.schemaValid = false
  · rw [if_pos c1, Prod.mk.injEq] at h
    exact Or.inl ⟨h.2.symm, _, h.1.symm⟩
  rw [if_neg c1] at h
  by_cases c2 : amountCheckPasses data.amount = false
  · rw [if_pos c2, Prod.mk.injEq] at h
    exact Or.inl ⟨h.2.symm, _, h.1.symm⟩
  rw [if_neg c2] at h
  by_cases c3 : rateLimitExceeded (mapGet m (auctionKey data))
      env.requestLimit env.currentTime = true
  · rw [if_pos c3, Prod.mk.injEq] at h
    exact Or.inl ⟨h.2.symm, _, h.1.symm⟩
  rw [if_neg c3] at h
  by_cases c4 : data.expiry ≤ env.currentTime + env.auctionExpiryBuffer
  · rw [if_pos c4, Prod.mk.injEq] at h
    exact Or.inl ⟨h.2.symm, _, h.1.symm⟩
  rw [if_neg c4] at h
  rcases hsc : env.chainConfig data.sendingChainId with _ | sendingConfig
  · simp only [hsc, Prod.mk.injEq] at h
    exact Or.inl ⟨h.2.symm, _, h.1.symm⟩
  simp only [hsc] at h
  rcases hrc : env.chainConfig data.receivingChainId with _ | receivingConfig
  · simp only [hrc, Prod.mk.injEq] at h
    exact Or.inl ⟨h.2.symm, _, h.1.symm⟩
  simp only [hrc] at h
  by_cases c5 : sendingConfig.providers = [] ∨ receivingConfig.providers = []
  · rw [if_pos c5, Prod.mk.injEq] at h
    exact Or.inl ⟨h.2.symm, _, h.1.symm⟩
  rw [if_neg c5] at h
  by_cases c6 : env.receivingSyncRecords.any (fun r => r.synced) = false
  · rw [if_pos c6, Prod.mk.injEq] at h
    exact Or.inl ⟨h.2.symm, _, h.1.symm⟩
  rw [if_neg c6] at h
  by_cases c7 : env.sendingSyncRecords.any (fun r => r.synced) = false
  · rw [if_pos c7, Prod.mk.injEq] at h
    exact Or.inl ⟨h.2.symm, _, h.1.symm⟩
  rw [if_neg c7] at h
  by_cases c8 : env.swapIdxFound = false
  · rw [if_pos c8, Prod.mk.injEq] at h
    exact Or.inl ⟨h.2.symm, _, h.1.symm⟩
  rw [if_neg c8] at h
  rcases hamm : env.getReceiverAmountRes with _ | amm
  · simp only [hamm, Prod.mk.injEq] at h
    exact Or.inl ⟨h.2.symm, _, h.1.symm⟩
  simp only [hamm] at h
  by_cases c9 : amm < env.gasFeeInReceivingToken
  · rw [if_pos c9, Prod.mk.injEq] at h
    exact Or.inl ⟨h.2.symm, _, h.1.symm⟩
  rw [if_neg c9] at h
  by_cases c10 : env.receiverLiquidity < amm - env.gasFeeInReceivingToken
  · rw [if_pos c10, Prod.mk.injEq] at h
    exact Or.inl ⟨h.2.symm, _, h.1.symm⟩
  rw [if_neg c10] at h
  by_cases c11 : env.senderBalance < sendingConfig.minGas
      ∨ env.receiverBalance < receivingConfig.minGas
  · rw [if_pos c11, Prod.mk.injEq] at h
    exact Or.inl ⟨h.2.symm, _, h.1.symm⟩
  rw [if_neg c11, Prod.mk.injEq] at h
  exact Or.inr ⟨h.2.symm, sendingConfig, receivingConfig, amm, rfl, rfl, rfl, c9, c10, h.1.symm⟩

/-- C9: `newAuction` writes AUCTION_REQUEST_MAP only on the success
path: whenever it throws, the map it returns is exactly the map it was
given, and on success the only change is recording `currentTime * 1000`
under the request's key. -/
theorem newAuction_request_map_update (env : AuctionEnv) (data : AuctionPayload)
    (m : RequestMap) :
    (newAuction env data m).2 =
      match (newAuction env data m).1 with
      | .error _ => m
      | .ok _ => mapSet m (auctionKey data) (env.currentTime * 1000) := by
  rcases hp : newAuction env data m with ⟨res, m2⟩
  rcases newAuction_pair_spec env data m res m2 hp with
    ⟨hm, e, he⟩ | ⟨hm, sc, rc, amm, hsc, hrc, hamm, hge, hliq, hres⟩
  · subst he
    simp [hm]
  · subst hres
    simp [hm]

/-- Helper: exhaustive enumeration of `newAuction` outcomes, each paired
with the record of the checks that led to it, in source order. -/
theorem newAuction_cases (env : AuctionEnv) (data : AuctionPayload)
    (m : RequestMap) (res : Except AuctionError AuctionResponse) (m2 : RequestMap)
    (h : newAuction env data m = (res, m2)) :
    (env.schemaValid = false ∧
      res = Except.error AuctionError.ParamsInvalid) ∨
    (env.schemaValid = true ∧ amountCheckPasses data.amount = false ∧
      res = Except.error AuctionError.ZeroValueBid) ∨
    (env.schemaValid = true ∧ amountCheckPasses data.amount = true ∧
      rateLimitExceeded (mapGet m (auctionKey data)) env.requestLimit env.currentTime = true ∧
      res = Except.error AuctionError.AuctionRateExceeded) ∨
    (env.schemaValid = true ∧ amountCheckPasses data.amount = true ∧
      rateLimitExceeded (mapGet m (auctionKey data)) env.requestLimit env.currentTime = false ∧
      data.expiry ≤ env.currentTime + env.auctionExpiryBuffer ∧
      res = Except.error AuctionError.AuctionExpired) ∨
    (env.schemaValid = true ∧ amountCheckPasses data.amount = true ∧
      rateLimitExceeded (mapGet m (auctionKey data)) env.requestLimit env.currentTime = false ∧
      ¬ data.expiry ≤ env.currentTime + env.auctionExpiryBuffer ∧
      env.chainConfig data.sendingChainId = none ∧
      res = Except.error AuctionError.ProvidersNotAvailable) ∨
    (env.schemaValid = true ∧ amountCheckPasses data.amount = true ∧
      rateLimitExceeded (mapGet m (auctionKey data)) env.requestLimit env.currentTime = false ∧
      ¬ data.expiry ≤ env.currentTime + env.auctionExpiryBuffer ∧
      (∃ sc, env.chainConfig data.sendingChainId = some sc) ∧
      env.chainConfig data.receivingChainId = none ∧
      res = Except.error AuctionError.ProvidersNotAvailable) ∨
    (env.schemaValid = true ∧ amountCheckPasses data.amount = true ∧
      rateLimitExceeded (mapGet m (auctionKey data)) env.requestLimit env.currentTime = false ∧
      ¬ data.expiry ≤ env.currentTime + env.auctionExpiryBuffer ∧
      (∃ sc rc, env.chainConfig data.sendingChainId = some sc ∧
        env.chainConfig data.receivingChainId = some rc ∧
        (sc.providers = [] ∨ rc.providers = [])) ∧
      res = Except.error AuctionError.ProvidersNotAvailable) ∨
    (env.schemaValid = true ∧ amountCheckPasses data.amount = true ∧
      rateLimitExceeded (mapGet m (auctionKey data)) env.requestLimit env.currentTime = false ∧
      ¬ data.expiry ≤ env.currentTime + env.auctionExpiryBuffer ∧
      env.receivingSyncRecords.any (fun r => r.synced) = false ∧
      res = Except.error (AuctionError.SubgraphNotSynced data.receivingChainId)) ∨
    (env.schemaValid = true ∧ amountCheckPasses data.amount = true ∧
      rateLimitExceeded (mapGet m (auctionKey data)) env.requestLimit env.currentTime = false ∧
      ¬ data.expiry ≤ env.currentTime + env.auctionExpiryBuffer ∧
      env.receivingSyncRecords.any (fun r => r.synced) = true ∧
      env.sendingSyncRecords.any (fun r => r.synced) = false ∧
      res = Except.error (AuctionError.SubgraphNotSynced data.sendingChainId)) ∨
    (env.schemaValid = true ∧ amountCheckPasses data.amount = true ∧
      rateLimitExceeded (mapGet m (auctionKey data)) env.requestLimit env.currentTime = false ∧
      ¬ data.expiry ≤ env.currentTime + env.auctionExpiryBuffer ∧
      env.receivingSyncRecords.any (fun r => r.synced) = true ∧
      env.sendingSyncRecords.any (fun r => r.synced) = true ∧
      (res = Except.error AuctionError.SwapInvalid ∨
       res = Except.error AuctionError.PriceImpactTooHigh ∨
       res = Except.error AuctionError.NotEnoughAmount ∨
       res = Except.error AuctionError.NotEnoughLiquidity ∨
       res = Except.error AuctionError.NotEnoughGas ∨
       ∃ r, res = Except.ok r)) := by
  unfold newAuction at h
  by_cases c1 : env.schemaValid = false
  · rw [if_pos c1, Prod.mk.injEq] at h
    exact Or.inl ⟨c1, h.1.symm⟩
  rw [if_neg c1] at h
  have c1' : env.schemaValid = true := by simpa using c1
  by_cases c2 : amountCheckPasses data.amount = false
  · rw [if_pos c2, Prod.mk.injEq] at h
    exact Or.inr (Or.inl ⟨c1', c2, h.1.symm⟩)
  rw [if_neg c2] at h
  have c2' : amountCheckPasses data.amount = true := by simpa using c2
  by_cases c3 : rateLimitExceeded (mapGet m (auctionKey data))
      env.requestLimit env.currentTime = true
  · rw [if_pos c3, Prod.mk.injEq] at h
    exact Or.inr (Or.inr (Or.inl ⟨c1', c2', c3, h.1.symm⟩))
  rw [if_neg c3] at h
  have c3' : rateLimitExceeded (mapGet m (auctionKey data))
      env.requestLimit env.currentTime = false := by simpa using c3
  by_cases c4 : data.expiry ≤ env.currentTime + env.auctionExpiryBuffer
  · rw [if_pos c4, Prod.mk.injEq] at h
    exact Or.inr (Or.inr (Or.inr (Or.inl ⟨c1', c2', c3', c4, h.1.symm⟩)))
  rw [if_neg c4] at h
  rcases hsc : env.chainConfig data.sendingChainId with _ | sendingConfig
  · simp only [hsc, Prod.mk.injEq] at h
    exact Or.inr (Or.inr (Or.inr (Or.inr (Or.inl ⟨c1', c2', c3', c4, rfl, h.1.symm⟩))))
  simp only [hsc] at h
  rcases hrc : env.chainConfig data.receivingChainId with _ | receivingConfig
  · simp only [hrc, Prod.mk.injEq] at h
    exact Or.inr (Or.inr (Or.inr (Or.inr (Or.inr (Or.inl
      ⟨c1', c2', c3', c4, ⟨sendingConfig, rfl⟩, rfl, h.1.symm⟩)))))
  simp only [hrc] at h
  by_cases c5 : sendingConfig.providers = [] ∨ receivingConfig.providers = []
  · rw [if_pos c5, Prod.mk.injEq] at h
    exact Or.inr (Or.inr (Or.inr (Or.inr (Or.inr (Or.inr (Or.inl
      ⟨c1', c2', c3', c4, ⟨sendingConfig, receivingConfig, rfl, rfl, c5⟩, h.1.symm⟩))))))
  rw [if_neg c5] at h
  by_cases c6 : env.receivingSyncRecords.any (fun r => r.synced) = false
  · rw [if_pos c6, Prod.mk.injEq] at h
    exact Or.inr (Or.inr (Or.inr (Or.inr (Or.inr (Or.inr (Or.inr (Or.inl
      ⟨c1', c2', c3', c4, c6, h.1.symm⟩)))))))
  rw [if_neg c6] at h
  have c6' : env.receivingSyncRecords.any (fun r => r.synced) = true := by simpa using c6
  by_cases c7 : env.sendingSyncRecords.any (fun r => r.synced) = false
  · rw [if_pos c7, Prod.mk.injEq] at h
    exact Or.inr (Or.inr (Or.inr (Or.inr (Or.inr (Or.inr (Or.inr (Or.inr (Or.inl
      ⟨c1', c2', c3', c4, c6', c7, h.1.symm⟩))))))))
  rw [if_neg c7] at h
  have c7' : env.sendingSyncRecords.any (fun r => r.synced) = true := by simpa using c7
  refine Or.inr (Or.inr (Or.inr (Or.inr (Or.inr (Or.inr (Or.inr (Or.inr (Or.inr
    ⟨c1', c2', c3', c4, c6', c7', ?_⟩))))))))
  by_cases c8 : env.swapIdxFound = false
  · rw [if_pos c8, Prod.mk.injEq] at h
    exact Or.inl h.1.symm
  rw [if_neg c8] at h
  rcases hamm : env.getReceiverAmountRes with _ | amm
  · simp only [hamm, Prod.mk.injEq] at h
    exact Or.inr (Or.inl h.1.symm)
  simp only [hamm] at h
  by_cases c9 : amm < env.gasFeeInReceivingToken
  · rw [if_pos c9, Prod.mk.injEq] at h
    exact Or.inr (Or.inr (Or.inl h.1.symm))
  rw [if_neg c9] at h
  by_cases c10 : env.receiverLiquidity < amm - env.gasFeeInReceivingToken
  · rw [if_pos c10, Prod.mk.injEq] at h
    exact Or.inr (Or.inr (Or.inr (Or.inl h.1.symm)))
  rw [if_neg c10] at h
  by_cases c11 : env.senderBalance < sendingConfig.minGas
      ∨ env.receiverBalance < receivingConfig.minGas
  · rw [if_pos c11, Prod.mk.injEq] at h
    exact Or.inr (Or.inr (Or.inr (Or.inr (Or.inl h.1.symm))))
  rw [if_neg c11, Prod.mk.injEq] at h
  exact Or.inr (Or.inr (Or.inr (Or.inr (Or.inr ⟨_, h.1.symm⟩))))

/-- C1 amended: every auction `newAuction` accepts yields a bid with
0 ≤ amountReceived ≤ receiverLiquidity; a bid is produced only when the
AMM output is at least (not strictly greater than) the gas fee, and the
bid's amountReceived is the AMM output minus the fee — so it is 0
exactly when the two are equal. -/
theorem newAuction_bid_bounds (env : AuctionEnv) (data : AuctionPayload)
    (m : RequestMap) (r : AuctionResponse)
    (h : (newAuction env data m).1 = Except.ok r) :
    ∃ amm, env.getReceiverAmountRes = some amm ∧
      env.gasFeeInReceivingToken ≤ amm ∧
      r.bid.amountReceived = amm - env.gasFeeInReceivingToken ∧
      0 ≤ r.bid.amountReceived ∧
      r.bid.amountReceived ≤ env.receiverLiquidity := by
  rcases newAuction_pair_spec env data m (newAuction env data m).1
      (newAuction env data m).2 rfl with
    ⟨hm, e, he⟩ | ⟨hm, sc, rc, amm, hsc, hrc, hamm, hge, hliq, hres⟩
  · rw [h] at he
    exact absurd he (by simp)
  · rw [h] at hres
    have hr : r = buildResponse env data sc rc (amm - env.gasFeeInReceivingToken) :=
      Except.ok.inj hres
    subst hr
    refine ⟨amm, hamm, le_of_not_lt hge, rfl, ?_, ?_⟩
    · exact sub_nonneg.mpr (le_of_not_lt hge)
    · exact le_of_not_lt hliq

/-- C1 witness: the amended statement instantiated on the concrete
accepting run `envC1`, `dataC1`, whose AMM output and gas fee are both
50. -/
theorem newAuction_bid_bounds_witness :
    ∃ amm, envC1.getReceiverAmountRes = some amm ∧
      envC1.gasFeeInReceivingToken ≤ amm ∧
      rC1.bid.amountReceived = amm - envC1.gasFeeInReceivingToken ∧
      0 ≤ rC1.bid.amountReceived ∧
      rC1.bid.amountReceived ≤ envC1.receiverLiquidity :=
  newAuction_bid_bounds envC1 dataC1 [] rC1 rfl

/-- C3: with the schema and amount checks passing and a recorded last
attempt `t > 0` under the request's key, `newAuction` fails with
AuctionRateExceeded exactly when fewer than `requestLimit` milliseconds
have elapsed since `t`; with at least `requestLimit` elapsed it passes
the rate-limit check. -/
theorem newAuction_rate_limit_iff (env : AuctionEnv) (data : AuctionPayload)
    (m : RequestMap) (t : Nat)
    (hschema : env.schemaValid = true)
    (hamount : amountCheckPasses data.amount = true)
    (hlast : mapGet m (auctionKey data) = some t)
    (ht : 0 < t) :
    ((newAuction env data m).1 = Except.error AuctionError.AuctionRateExceeded ↔
      (env.currentTime : Int) * 1000 - (t : Int) < (env.requestLimit : Int)) := by
  have hrl : (rateLimitExceeded (mapGet m (auctionKey data))
      env.requestLimit env.currentTime = true) ↔
      ((env.currentTime : Int) * 1000 - (t : Int) < (env.requestLimit : Int)) := by
    rw [hlast]
    unfold rateLimitExceeded
    simp only [Bool.and_eq_true, bne_iff_ne, ne_eq, decide_eq_true_eq]
    omega
  rcases newAuction_cases env data m (newAuction env data m).1
      (newAuction env data m).2 rfl with
    D | D | D | D | D | D | D | D | D | D
  · exact absurd D.1 (by simp [hschema])
  · exact absurd D.2.1 (by simp [hamount])
  · exact iff_of_true D.2.2.2 (hrl.mp D.2.2.1)
  · exact iff_of_false (by rw [D.2.2.2.2]; simp) (by rw [← hrl, D.2.2.1]; simp)
  · exact iff_of_false (by rw [D.2.2.2.2.2]; simp) (by rw [← hrl, D.2.2.1]; simp)
  · exact iff_of_false (by rw [D.2.2.2.2.2.2]; simp) (by rw [← hrl, D.2.2.1]; simp)
  · exact iff_of_false (by rw [D.2.2.2.2.2]; simp) (by rw [← hrl, D.2.2.1]; simp)
  · exact iff_of_false (by rw [D.2.2.2.2.2]; simp) (by rw [← hrl, D.2.2.1]; simp)
  · exact iff_of_false (by rw [D.2.2.2.2.2.2]; simp) (by rw [← hrl, D.2.2.1]; simp)
  · refine iff_of_false ?_ (by rw [← hrl, D.2.2.1]; simp)
    intro hcon
    rcases D.2.2.2.2.2.2 with hres | hres | hres | hres | hres | ⟨r, hres⟩ <;>
      rw [hres] at hcon <;> simp at hcon

/-- C3 witness: the rate-limit characterization instantiated on the
concrete run with a last attempt recorded at 500 ms. -/
theorem newAuction_rate_limit_iff_witness :
    ((newAuction envC3 dataC3 mC3).1 = Except.error AuctionError.AuctionRateExceeded ↔
      (envC3.currentTime : Int) * 1000 - (500 : Int) < (envC3.requestLimit : Int)) :=
  newAuction_rate_limit_iff envC3 dataC3 mC3 500 rfl rfl rfl (by decide)

/-- C7: with the schema, amount and rate-limit checks passing,
`newAuction` throws AuctionExpired exactly when the payload's expiry is
at most the current NTP time plus the auction-expiry buffer; any expiry
strictly beyond that passes the check. -/
theorem newAuction_expiry_iff (env : AuctionEnv) (data : AuctionPayload)
    (m : RequestMap)
    (hschema : env.schemaValid = true)
    (hamount : amountCheckPasses data.amount = true)
    (hrate : rateLimitExceeded (mapGet m (auctionKey data))
      env.requestLimit env.currentTime = false) :
    ((newAuction env data m).1 = Except.error AuctionError.AuctionExpired ↔
      data.expiry ≤ env.currentTime + env.auctionExpiryBuffer) := by
  rcases newAuction_cases env data m (newAuction env data m).1
      (newAuction env data m).2 rfl with
    D | D | D | D | D | D | D | D | D | D
  · exact absurd D.1 (by simp [hschema])
  · exact absurd D.2.1 (by simp [hamount])
  · exact absurd D.2.2.1 (by simp [hrate])
  · exact iff_of_true D.2.2.2.2 D.2.2.2.1
  · exact iff_of_false (by rw [D.2.2.2.2.2]; simp) D.2.2.2.1
  · exact iff_of_false (by rw [D.2.2.2.2.2.2]; simp) D.2.2.2.1
  · exact iff_of_false (by rw [D.2.2.2.2.2]; simp) D.2.2.2.1
  · exact iff_of_false (by rw [D.2.2.2.2.2]; simp) D.2.2.2.1
  · exact iff_of_false (by rw [D.2.2.2.2.2.2]; simp) D.2.2.2.1
  · refine iff_of_false ?_ D.2.2.2.1
    intro hcon
    rcases D.2.2.2.2.2.2 with hres | hres | hres | hres | hres | ⟨r, hres⟩ <;>
      rw [hres] at hcon <;> simp at hcon

/-- C7 witness: the expiry characterization instantiated on the concrete
run `envC7`, `dataC7` (expiry 10000, now 1000, buffer 300). -/
theorem newAuction_expiry_iff_witness :
    ((newAuction envC7 dataC7 []).1 = Except.error AuctionError.AuctionExpired ↔
      dataC7.expiry ≤ envC7.currentTime + envC7.auctionExpiryBuffer) :=
  newAuction_expiry_iff envC7 dataC7 [] rfl rfl rfl

/-- C8: once the earlier checks and the provider-configuration check
pass, `newAuction` throws SubgraphNotSynced (for the receiving or the
sending chain) exactly when that chain's sync-record list has no record
with synced = true; a chain with at least one synced record passes. -/
theorem newAuction_sync_iff (env : AuctionEnv) (data : AuctionPayload)
    (m : RequestMap) (sc rc : ChainCfg)
    (hschema : env.schemaValid = true)
    (hamount : amountCheckPasses data.amount = true)
    (hrate : rateLimitExceeded (mapGet m (auctionKey data))
      env.requestLimit env.currentTime = false)
    (hexp : ¬ data.expiry ≤ env.currentTime + env.auctionExpiryBuffer)
    (hsc : env.chainConfig data.sendingChainId = some sc)
    (hrc : env.chainConfig data.receivingChainId = some rc)
    (hprov : ¬ (sc.providers = [] ∨ rc.providers = [])) :
    (((newAuction env data m).1 =
        Except.error (AuctionError.SubgraphNotSynced data.receivingChainId) ∨
      (newAuction env data m).1 =
        Except.error (AuctionError.SubgraphNotSynced data.sendingChainId)) ↔
      (env.receivingSyncRecords.any (fun r => r.synced) = false ∨
       env.sendingSyncRecords.any (fun r => r.synced) = false)) := by
  rcases newAuction_cases env data m (newAuction env data m).1
      (newAuction env data m).2 rfl with
    D | D | D | D | D | D | D | D | D | D
  · exact absurd D.1 (by simp [hschema])
  · exact absurd D.2.1 (by simp [hamount])
  · exact absurd D.2.2.1 (by simp [hrate])
  · exact absurd D.2.2.2.1 hexp
  · exact absurd D.2.2.2.2.1 (by simp [hsc])
  · exact absurd D.2.2.2.2.2.1 (by simp [hrc])
  · obtain ⟨sc2, rc2, hsc2, hrc2, hemp⟩ := D.2.2.2.2.1
    rw [hsc2] at hsc
    rw [hrc2] at hrc
    obtain rfl : sc2 = sc := Option.some.inj hsc
    obtain rfl : rc2 = rc := Option.some.inj hrc
    exact absurd hemp hprov
  · exact iff_of_true (Or.inl D.2.2.2.2.2) (Or.inl D.2.2.2.2.1)
  · exact iff_of_true (Or.inr D.2.2.2.2.2.2) (Or.inr D.2.2.2.2.2.1)
  · refine iff_of_false ?_ (by simp [D.2.2.2.2.1, D.2.2.2.2.2.1])
    intro hcon
    rcases D.2.2.2.2.2.2 with hres | hres | hres | hres | hres | ⟨r, hres⟩ <;>
      rcases hcon with hc | hc <;> rw [hres] at hc <;> simp at hc

/-- C8 witness: in `envC8` the receiving chain's only sync record is
unsynced, so the characterization yields the SubgraphNotSynced error. -/
theorem newAuction_sync_iff_witness :
    (((newAuction envC8 dataC8 []).1 =
        Except.error (AuctionError.SubgraphNotSynced dataC8.receivingChainId) ∨
      (newAuction envC8 dataC8 []).1 =
        Except.error (AuctionError.SubgraphNotSynced dataC8.sendingChainId)) ↔
      (envC8.receivingSyncRecords.any (fun r => r.synced) = false ∨
       envC8.sendingSyncRecords.any (fun r => r.synced) = false)) :=
  newAuction_sync_iff envC8 dataC8 [] cfgC8 cfgC8 rfl rfl rfl
    (by decide) rfl rfl (by simp [cfgC8])

/-- C4 amended: `calculateGasFee` returns 0 whenever the chain has no
configured price oracle, and with an oracle it returns the floor
division gasPrice · gasEstimate(action) · ethPrice / tokenPrice scaled
to `decimals` — which is 0 exactly when that product falls below
tokenPrice · 10^(18 − decimals), so a zero fee does not imply a missing
oracle. -/
theorem calculateGasFee_eq_zero_iff (env : GasOracleEnv) (chainId decimals : Nat)
    (action : GasAction) (hd : decimals ≤ 18) (htp : 0 < env.tokenPrice) :
    (calculateGasFee env chainId decimals action = 0 ↔
      chainId ∉ env.chainsWithPriceOracles ∨
        env.gasPrice * env.gasEstimate action * env.ethPrice <
          env.tokenPrice * 10 ^ (18 - decimals)) := by
  unfold calculateGasFee
  by_cases hc : chainId ∈ env.chainsWithPriceOracles
  · rw [if_pos hc, if_pos hd, Nat.div_div_eq_div_mul,
      Nat.div_eq_zero_iff (by positivity)]
    constructor
    · exact fun h => Or.inr h
    · intro h
      rcases h with h | h
      · exact absurd hc h
      · exact h
  · rw [if_neg hc]
    exact iff_of_true rfl (Or.inl hc)

/-- C4 witness: the amended characterization instantiated on an
oracle-configured chain with ordinary positive prices. -/
theorem calculateGasFee_eq_zero_iff_witness :
    (calculateGasFee gasEnvC4w 1 18 GasAction.prepare = 0 ↔
      1 ∉ gasEnvC4w.chainsWithPriceOracles ∨
        gasEnvC4w.gasPrice * gasEnvC4w.gasEstimate GasAction.prepare * gasEnvC4w.ethPrice <
          gasEnvC4w.tokenPrice * 10 ^ (18 - 18)) :=
  calculateGasFee_eq_zero_iff gasEnvC4w 1 18 GasAction.prepare (by decide) (by decide)

end Nxtp
